import Mathlib

/-!
Shallow embedding of `src/server.js` (the file-backed variant of the admin
backend: an Express server with an IP-allowlist admin gate, two JSON-keyed
collections persisted to disk, and CRUD endpoints over them).

JavaScript values are modelled by `JVal` (numbers as rationals; `NaN` and
string index spreading are not modelled, none of the code paths under
verification produce them). JavaScript objects are association lists of
string keys in insertion order, matching `Object.entries` iteration order
for the non-index-like keys this server uses. Property assignment and
object-literal spread are modelled by `objSet` (replace in place if the key
exists, append otherwise), exactly the JS semantics for unique-keyed
objects. Each request handler becomes a pure function from the request
data, the derived client address, one clock reading `now`
(`new Date().toISOString()` calls inside a single handler are modelled by
the same reading) and the stored state, to a status code, the new state and
the list of `saveData` calls performed.
-/

namespace AdminBackend

/-- A JavaScript/JSON value as it flows through the server: `undefined` is the
result of reading an absent property. Numbers are rationals. -/
inductive JVal where
  | undefined : JVal
  | null : JVal
  | bool (b : Bool) : JVal
  | num (q : Rat) : JVal
  | str (s : String) : JVal
  | arr (xs : List JVal) : JVal
  | obj (fields : List (String × JVal)) : JVal

/-- A JavaScript object: fields in insertion order, keys unique in every
object the server builds. -/
abbrev Obj := List (String × JVal)

/-- JavaScript truthiness (`NaN` is not modelled; `Rat` has no `NaN`). -/
def truthy : JVal → Bool
  | .undefined => false
  | .null => false
  | .bool b => b
  | .num q => decide (q ≠ 0)
  | .str s => decide (s ≠ "")
  | .arr _ => true
  | .obj _ => true

/-- Property read `o[k]` on an object: first binding of the key, `undefined`
if absent. -/
def objGet : Obj → String → JVal
  | [], _ => .undefined
  | p :: rest, k => if p.1 = k then p.2 else objGet rest k

/-- Property write `o[k] = v` (also a later entry of an object literal
overriding a spread field): replaces the value in place if the key exists,
appends otherwise, as JS does for string-keyed objects. -/
def objSet : Obj → String → JVal → Obj
  | [], k, v => [(k, v)]
  | p :: rest, k, v => if p.1 = k then (k, v) :: rest else p :: objSet rest k v

/-- `delete o[k]`: removes the binding of the key. -/
def objDelete : Obj → String → Obj
  | [], _ => []
  | p :: rest, k => if p.1 = k then rest else p :: objDelete rest k

/-- Sequential property writes, as in an object literal
`\x7b...spread, k1: v1, k2: v2, ...\x7d` after the spread. -/
def objSetAll (fs : Obj) (kvs : Obj) : Obj :=
  kvs.foldl (fun acc kv => objSet acc kv.1 kv.2) fs

/-- Property read `v.k` on an arbitrary value: `undefined` unless `v` is an
object carrying the key (the fields this server reads do not exist on
primitives). -/
def JVal.getF : JVal → String → JVal
  | .obj fs, k => objGet fs k
  | _, _ => .undefined

/-- The own enumerable fields contributed by `\x7b...v\x7d`: those of an
object, none for `null`/`undefined`/booleans/numbers (spreading a string or
array would contribute index keys; no verified path does that). -/
def spreadFields : JVal → Obj
  | .obj fs => fs
  | _ => []

/-- JavaScript `a || b` on values. -/
def jsOrV (a b : JVal) : JVal :=
  if truthy a then a else b

/-- JavaScript strict equality `v === "lit"` against a string literal. -/
def jsStrictEqStr (v : JVal) (s : String) : Bool :=
  match v with
  | .str t => t == s
  | _ => false

/-- The string a value coerces to when used as an object key. The server
only ever uses string keys; the other coercions are best-effort stand-ins
(JS number formatting is not reproduced). -/
def jsKey : JVal → String
  | .str s => s
  | .bool b => if b then "true" else "false"
  | .num q => toString q
  | .null => "null"
  | .undefined => "undefined"
  | .arr _ => ""
  | .obj _ => "[object Object]"

/-- Whether `sub` is a prefix of `s`, on character lists. -/
def prefixAt : List Char → List Char → Bool
  | [], _ => true
  | _ :: _, [] => false
  | c :: cs, d :: ds => c == d && prefixAt cs ds

/-- Whether `sub` occurs contiguously inside `s`, on character lists. -/
def infixOf : List Char → List Char → Bool
  | sub, [] => sub.isEmpty
  | sub, d :: ds => prefixAt sub (d :: ds) || infixOf sub ds

/-- Substring test, `s.includes(sub)`. -/
def strContains (s sub : String) : Bool :=
  infixOf sub.toList s.toList

/-- The parts of an inbound request the address derivation and the gate
read: the two headers, the transport peer address (`req.connection` /
`req.socket` / `req.ip`) and the resolved hostname. `none` is an absent
header/property. -/
structure Request where
  xForwardedFor : Option String := none
  xRealIp : Option String := none
  connRemoteAddress : Option String := none
  sockRemoteAddress : Option String := none
  ip : Option String := none
  hostname : String := ""

/-- JavaScript `a || b` over possibly-undefined strings (empty string and
`undefined` are falsy). -/
def jsOrS (a b : Option String) : Option String :=
  match a with
  | some s => if s = "" then b else some s
  | none => b

/-- The whitespace characters JS `trim` strips (the ones that occur in
header values). -/
def isWs (c : Char) : Bool :=
  c == ' ' || c == '\t' || c == '\n' || c == '\r'

/-- JavaScript `s.trim()`. -/
def jsTrim (s : String) : String :=
  String.mk (((s.toList.dropWhile isWs).reverse.dropWhile isWs).reverse)

/-- `s.split(',')[0]`: the characters before the first comma (the whole
string when there is none). -/
def beforeComma (s : String) : String :=
  String.mk (s.toList.takeWhile (fun c => !(c == ',')))

/-- `req.headers[x-forwarded-for]?.split(',')[0]?.trim()`. -/
def firstForwarded (h : Option String) : Option String :=
  h.map (fun s => jsTrim (beforeComma s))

/-- `getClientIP` (src/server.js lines 72-78): first forwarded-for entry,
then `x-real-ip`, then the transport peer address fields. -/
def getClientIP (req : Request) : Option String :=
  jsOrS (firstForwarded req.xForwardedFor)
    (jsOrS req.xRealIp
      (jsOrS req.connRemoteAddress
        (jsOrS req.sockRemoteAddress req.ip)))

/-- The static allowlist `ADMIN_IPS` (src/server.js lines 9-17). -/
def ADMIN_IPS : List String :=
  ["172.59.196.158",
   "104.179.159.180",
   "172.58.183.6",
   "172.59.195.98",
   "192.168.12.160",
   "192.168.12.230",
   "172.58.183.208"]

/-- The admin gate `verifyAdmin` (src/server.js lines 80-95) as a function
of the resolved hostname and the derived client address: grants when the
hostname is `localhost`, the address contains `127.0.0.1` or `::1` as a
substring, equals `::ffff:127.0.0.1`, or is in the allowlist. -/
def verifyAdmin (hostname : String) (clientIP : Option String) : Bool :=
  let isLocalhost :=
    hostname == "localhost" ||
    (match clientIP with | some s => strContains s "127.0.0.1" | none => false) ||
    (match clientIP with | some s => strContains s "::1" | none => false) ||
    clientIP == some "::ffff:127.0.0.1"
  isLocalhost ||
    (match clientIP with | some s => ADMIN_IPS.contains s | none => false)

/-- The gate applied to a request. -/
def verifyAdminReq (req : Request) : Bool :=
  verifyAdmin req.hostname (getClientIP req)

/-- The two backing files, `content.json` and `products.json`. -/
inductive FileId where
  | content : FileId
  | products : FileId
deriving DecidableEq

/-- The two stored collections as the handlers see them after `loadData`. -/
structure AppState where
  content : Obj
  products : Obj

/-- Outcome of one request: HTTP status, the stored state afterwards, and
the `saveData` calls the handler performed, in order. -/
structure HResult where
  status : Nat
  state : AppState
  writes : List (FileId × Obj)

/-- The value stored in `modifiedBy`: the derived client address, or
`undefined` when none could be derived. -/
def ipVal : Option String → JVal
  | some s => .str s
  | none => .undefined

/-- POST `/api/content` after the gate (src/server.js lines 187-214):
requires truthy `page` and `changes`, then overwrites the page
unconditionally with the spread changes plus fresh stamps. -/
def postContentCore (body : JVal) (clientIP : Option String) (now : String)
    (st : AppState) : HResult :=
  let page := body.getF "page"
  let changes := body.getF "changes"
  let timestamp := body.getF "timestamp"
  if !truthy page || !truthy changes then ⟨400, st, []⟩
  else
    let record := objSetAll (spreadFields changes)
      [("lastModified", jsOrV timestamp (.str now)),
       ("modifiedBy", ipVal clientIP)]
    let content2 := objSet st.content (jsKey page) (.obj record)
    ⟨200, ⟨content2, st.products⟩, [(FileId.content, content2)]⟩

/-- POST `/api/products` after the gate (src/server.js lines 228-269):
validates `productId`/`productData` and `name`/`price` by truthiness,
rejects an existing key with 409, else stores the spread data plus `id`,
fresh `lastModified`/`modifiedBy`, and `createdAt` defaulted from the
body. -/
def postProductCore (body : JVal) (clientIP : Option String) (now : String)
    (st : AppState) : HResult :=
  let productId := body.getF "productId"
  let data := body.getF "productData"
  if !truthy productId || !truthy data then ⟨400, st, []⟩
  else if !truthy (data.getF "name") || !truthy (data.getF "price") then ⟨400, st, []⟩
  else
    let pid := jsKey productId
    if truthy (objGet st.products pid) then ⟨409, st, []⟩
    else
      let record := objSetAll (spreadFields data)
        [("id", productId),
         ("lastModified", .str now),
         ("modifiedBy", ipVal clientIP),
         ("createdAt", jsOrV (data.getF "createdAt") (.str now))]
      let products2 := objSet st.products pid (.obj record)
      ⟨200, ⟨st.content, products2⟩, [(FileId.products, products2)]⟩

/-- PUT `/api/products/:id` after the gate (src/server.js lines 272-312):
validates `name`/`price` by truthiness, 404 if the key is absent, else
replaces the record with the spread body plus `id`, fresh stamps, and
`createdAt`/`createdBy` carried from the original record when truthy
(defaulting to `now` / `admin`). -/
def putProductCore (id : String) (body : JVal) (clientIP : Option String)
    (now : String) (st : AppState) : HResult :=
  if !truthy (body.getF "name") || !truthy (body.getF "price") then ⟨400, st, []⟩
  else if !truthy (objGet st.products id) then ⟨404, st, []⟩
  else
    let originalProduct := objGet st.products id
    let record := objSetAll (spreadFields body)
      [("id", .str id),
       ("lastModified", .str now),
       ("modifiedBy", ipVal clientIP),
       ("createdAt", jsOrV (originalProduct.getF "createdAt") (.str now)),
       ("createdBy", jsOrV (originalProduct.getF "createdBy") (.str "admin"))]
    let products2 := objSet st.products id (.obj record)
    ⟨200, ⟨st.content, products2⟩, [(FileId.products, products2)]⟩

/-- DELETE `/api/products/:id` after the gate (src/server.js lines
315-332): removes a present key and persists, 404 otherwise. -/
def deleteProductCore (id : String) (st : AppState) : HResult :=
  if truthy (objGet st.products id) then
    let products2 := objDelete st.products id
    ⟨200, ⟨st.content, products2⟩, [(FileId.products, products2)]⟩
  else ⟨404, st, []⟩

/-- GET `/api/products/:id` (src/server.js lines 335-349): the stored
record, or 404 with no value. -/
def getProductCore (id : String) (st : AppState) : Nat × JVal :=
  if truthy (objGet st.products id) then (200, objGet st.products id)
  else (404, .undefined)

/-- POST `/api/reset` after the gate (src/server.js lines 352-373):
empties the chosen collection(s), 400 on any other `type`. -/
def resetCore (body : JVal) (st : AppState) : HResult :=
  let ty := body.getF "type"
  if jsStrictEqStr ty "content" then
    ⟨200, ⟨[], st.products⟩, [(FileId.content, [])]⟩
  else if jsStrictEqStr ty "products" then
    ⟨200, ⟨st.content, []⟩, [(FileId.products, [])]⟩
  else if jsStrictEqStr ty "all" then
    ⟨200, ⟨[], []⟩, [(FileId.content, []), (FileId.products, [])]⟩
  else ⟨400, st, []⟩

/-- POST `/api/content` including the `verifyAdmin` gate. -/
def postContent (req : Request) (body : JVal) (now : String)
    (st : AppState) : HResult :=
  if verifyAdminReq req then postContentCore body (getClientIP req) now st
  else ⟨403, st, []⟩

/-- POST `/api/products` including the `verifyAdmin` gate. -/
def postProduct (req : Request) (body : JVal) (now : String)
    (st : AppState) : HResult :=
  if verifyAdminReq req then postProductCore body (getClientIP req) now st
  else ⟨403, st, []⟩

/-- PUT `/api/products/:id` including the `verifyAdmin` gate. -/
def putProduct (req : Request) (id : String) (body : JVal) (now : String)
    (st : AppState) : HResult :=
  if verifyAdminReq req then putProductCore id body (getClientIP req) now st
  else ⟨403, st, []⟩

/-- DELETE `/api/products/:id` including the `verifyAdmin` gate. -/
def deleteProduct (req : Request) (id : String) (st : AppState) : HResult :=
  if verifyAdminReq req then deleteProductCore id st
  else ⟨403, st, []⟩

/-- POST `/api/reset` including the `verifyAdmin` gate. -/
def resetData (req : Request) (body : JVal) (st : AppState) : HResult :=
  if verifyAdminReq req then resetCore body st
  else ⟨403, st, []⟩

/-- The names of the fields a public product projection carries, in the
order the handler builds them. -/
def publicFieldNames : List String :=
  ["id", "name", "price", "description", "category", "emoji", "imageUrl",
   "inStock", "featured", "sizes", "scents", "colors"]

/-- `product.inStock !== false`. -/
def jsStrictNeqFalse : JVal → Bool
  | .bool false => false
  | _ => true

/-- One item of the public product list (src/server.js lines 153-166). -/
def projectProduct (id : String) (product : JVal) : Obj :=
  [("id", .str id),
   ("name", product.getF "name"),
   ("price", product.getF "price"),
   ("description", product.getF "description"),
   ("category", product.getF "category"),
   ("emoji", product.getF "emoji"),
   ("imageUrl", product.getF "imageUrl"),
   ("inStock", .bool (jsStrictNeqFalse (product.getF "inStock"))),
   ("featured", jsOrV (product.getF "featured") (.bool false)),
   ("sizes", jsOrV (product.getF "sizes") (.arr [.str "Standard"])),
   ("scents", jsOrV (product.getF "scents") (.arr [])),
   ("colors", jsOrV (product.getF "colors") (.arr []))]

/-- GET `/api/products/list` (src/server.js lines 149-173): one projection
per stored entry, in `Object.entries` iteration order. -/
def listPublicProducts (store : Obj) : List Obj :=
  store.map (fun p => projectProduct p.1 p.2)

/-- What `fs.readFile` produced: the file text, or a rejection carrying the
error's `code` property (absent on non-filesystem errors). -/
inductive ReadResult where
  | ok (data : String) : ReadResult
  | err (code : Option String) : ReadResult

/-- How `loadData` fails: a rethrown filesystem error, or a rethrown
`JSON.parse` error. -/
inductive LoadError where
  | ioFailure (code : Option String) : LoadError
  | parseFailure (msg : String) : LoadError

/-- `loadData` (src/server.js lines 31-41), over the outcome of the read
and the behaviour of `JSON.parse` on the text read: an `ENOENT` rejection
becomes the empty mapping, any other error is rethrown. -/
def loadData (read : ReadResult) (parse : String → Except String JVal) :
    Except LoadError JVal :=
  match read with
  | .ok s =>
    match parse s with
    | .ok v => .ok v
    | .error m => .error (.parseFailure m)
  | .err code =>
    if code == some "ENOENT" then .ok (.obj [])
    else .error (.ioFailure code)

/-! Lemmas about the object model. -/

theorem objSetAll_nil (fs : Obj) : objSetAll fs [] = fs := rfl

theorem objSetAll_cons (fs : Obj) (k : String) (v : JVal) (kvs : Obj) :
    objSetAll fs ((k, v) :: kvs) = objSetAll (objSet fs k v) kvs := rfl

theorem objGet_objSet (fs : Obj) (k k' : String) (v : JVal) :
    objGet (objSet fs k v) k' = if k = k' then v else objGet fs k' := by
  induction fs with
  | nil => simp [objSet, objGet]
  | cons p rest ih =>
    by_cases hpk : p.1 = k
    · subst hpk
      by_cases hkk : p.1 = k' <;> simp [objSet, objGet, hkk]
    · by_cases hpk' : p.1 = k'
      · subst hpk'
        simp [objSet, objGet, hpk, ih]
        rw [if_neg (fun h => hpk h.symm)]
      · simp [objSet, objGet, hpk, hpk', ih]

theorem objGet_spreadFields (v : JVal) (k : String) :
    objGet (spreadFields v) k = v.getF k := by
  cases v <;> rfl

theorem truthy_obj (fs : Obj) : truthy (.obj fs) = true := rfl

theorem getF_obj (fs : Obj) (k : String) :
    (JVal.obj fs).getF k = objGet fs k := rfl

/-- C1 (counterexample): the gate also grants a derived address that is
neither `127.0.0.1` nor in `ADMIN_IPS`, because the code checks substring
containment: `127.0.0.1-evil` passes. -/
theorem gate_not_exact_match :
    verifyAdmin "adminbackend.example" (some "127.0.0.1-evil") = true ∧
    "127.0.0.1-evil" ≠ "127.0.0.1" ∧
    "127.0.0.1-evil" ∉ ADMIN_IPS := by
  decide

/-- C1 (amended): for any hostname other than `localhost`, the gate grants
a derived address exactly when it contains `127.0.0.1` or `::1` as a
substring, equals `::ffff:127.0.0.1`, or is literally in `ADMIN_IPS`; in
particular it is true for `127.0.0.1` and the allowlist and false for
every other address free of those substrings. -/
theorem gate_characterization (h ip : String) (hh : h ≠ "localhost") :
    verifyAdmin h (some ip) = true ↔
      (strContains ip "127.0.0.1" = true ∨ strContains ip "::1" = true ∨
       ip = "::ffff:127.0.0.1" ∨ ip ∈ ADMIN_IPS) := by
  unfold verifyAdmin
  simp [hh]
  tauto

/-- C1 witness: an allowlisted address is granted. -/
theorem gate_characterization_w :
    verifyAdmin "adminbackend.example" (some "172.59.196.158") = true :=
  (gate_characterization "adminbackend.example" "172.59.196.158"
      (by decide)).mpr
    (Or.inr (Or.inr (Or.inr (by decide))))

/-- C10: any request whose derived caller address (first forwarded-for
entry, then `x-real-ip`, then the transport peer address) merely contains
the substring `127.0.0.1` or `::1` is granted by the gate, whatever the
hostname. -/
theorem gate_loopback_substring_spoof (req : Request) (ip : String)
    (hip : getClientIP req = some ip)
    (hsub : strContains ip "127.0.0.1" = true ∨ strContains ip "::1" = true) :
    verifyAdminReq req = true := by
  unfold verifyAdminReq verifyAdmin
  rw [hip]
  rcases hsub with h | h <;> simp [h]

/-- C10 witness: a remote caller sending `x-forwarded-for:
127.0.0.1-evil, 203.0.113.9` is granted. -/
theorem gate_loopback_substring_spoof_w :
    verifyAdminReq
      { xForwardedFor := some "127.0.0.1-evil, 203.0.113.9",
        connRemoteAddress := some "203.0.113.9",
        hostname := "adminbackend.example" } = true :=
  gate_loopback_substring_spoof _ "127.0.0.1-evil" (by decide)
    (Or.inl (by decide))

/-- C2: a product create whose (validated) body names a key already bound
to a stored record fails with 409, performs no save, and leaves the state
— in particular the whole products collection and the record under that
key — unchanged. -/
theorem create_conflict_unchanged
    (body : JVal) (clientIP : Option String) (now : String) (st : AppState)
    (r : Obj)
    (hpid : truthy (body.getF "productId") = true)
    (hdata : truthy (body.getF "productData") = true)
    (hname : truthy ((body.getF "productData").getF "name") = true)
    (hprice : truthy ((body.getF "productData").getF "price") = true)
    (hex : objGet st.products (jsKey (body.getF "productId")) = .obj r) :
    postProductCore body clientIP now st = ⟨409, st, []⟩ := by
  unfold postProductCore
  simp [hpid, hdata, hname, hprice, hex, truthy_obj]

/-- C2 witness: creating `p1` over an existing `p1` record is a 409 and
changes nothing. -/
theorem create_conflict_unchanged_w :
    postProductCore
      (.obj [("productId", .str "p1"),
             ("productData", .obj [("name", .str "Bead"), ("price", .num 10)])])
      (some "104.179.159.180") "2025-06-01T00:00:00.000Z"
      ⟨[], [("p1", .obj [("name", .str "Old"), ("price", .num 5)])]⟩ =
    ⟨409, ⟨[], [("p1", .obj [("name", .str "Old"), ("price", .num 5)])]⟩, []⟩ :=
  create_conflict_unchanged _ _ _ _
    [("name", .str "Old"), ("price", .num 5)]
    (by decide) (by decide) (by decide) (by decide) rfl

/-- The reads of the five fields a stored product record overrides on top
of the spread body. -/
theorem objGet_record5 (fsb : Obj) (a b c d e : JVal) (k : String) :
    objGet (objSetAll fsb
      [("id", a), ("lastModified", b), ("modifiedBy", c),
       ("createdAt", d), ("createdBy", e)]) k =
    if "createdBy" = k then e
    else if "createdAt" = k then d
    else if "modifiedBy" = k then c
    else if "lastModified" = k then b
    else if "id" = k then a
    else objGet fsb k := by
  simp [objSetAll_cons, objSetAll_nil, objGet_objSet]

/-- C3: an update of a key whose stored record carries (truthy)
`createdAt`/`createdBy` succeeds with a stored record that keeps exactly
those values, stamps fresh `lastModified`/`modifiedBy` and the echoed
`id`, and takes every other field from the request body. -/
theorem update_preserves_provenance
    (id : String) (body : JVal) (clientIP now : String) (st : AppState)
    (orig : Obj) (ca cb : JVal)
    (hname : truthy (body.getF "name") = true)
    (hprice : truthy (body.getF "price") = true)
    (horig : objGet st.products id = .obj orig)
    (hca : objGet orig "createdAt" = ca) (hcat : truthy ca = true)
    (hcb : objGet orig "createdBy" = cb) (hcbt : truthy cb = true) :
    (putProductCore id body (some clientIP) now st).status = 200 ∧
    ∃ r : Obj,
      objGet (putProductCore id body (some clientIP) now st).state.products
        id = .obj r ∧
      objGet r "createdAt" = ca ∧
      objGet r "createdBy" = cb ∧
      objGet r "lastModified" = .str now ∧
      objGet r "modifiedBy" = .str clientIP ∧
      objGet r "id" = .str id ∧
      ∀ k : String,
        k ∉ ["id", "lastModified", "modifiedBy", "createdAt", "createdBy"] →
        objGet r k = body.getF k := by
  have hput : putProductCore id body (some clientIP) now st =
      ⟨200,
       ⟨st.content,
        objSet st.products id (.obj (objSetAll (spreadFields body)
          [("id", .str id), ("lastModified", .str now),
           ("modifiedBy", .str clientIP), ("createdAt", ca),
           ("createdBy", cb)]))⟩,
       [(FileId.products, objSet st.products id (.obj (objSetAll (spreadFields body)
          [("id", .str id), ("lastModified", .str now),
           ("modifiedBy", .str clientIP), ("createdAt", ca),
           ("createdBy", cb)])))]⟩ := by
    unfold putProductCore
    simp [hname, hprice, horig, truthy_obj, ipVal, getF_obj, jsOrV, hca,
      hcat, hcb, hcbt]
  rw [hput]
  refine ⟨rfl,
    objSetAll (spreadFields body)
      [("id", .str id), ("lastModified", .str now),
       ("modifiedBy", .str clientIP), ("createdAt", ca), ("createdBy", cb)],
    ?_, ?_, ?_, ?_, ?_, ?_, ?_⟩
  · rw [objGet_objSet, if_pos rfl]
  · rw [objGet_record5, if_neg (by decide), if_pos rfl]
  · rw [objGet_record5, if_pos rfl]
  · rw [objGet_record5, if_neg (by decide), if_neg (by decide),
      if_neg (by decide), if_pos rfl]
  · rw [objGet_record5, if_neg (by decide), if_neg (by decide), if_pos rfl]
  · rw [objGet_record5, if_neg (by decide), if_neg (by decide),
      if_neg (by decide), if_neg (by decide), if_pos rfl]
  · intro k hk
    simp [not_or] at hk
    obtain ⟨h1, h2, h3, h4, h5⟩ := hk
    rw [objGet_record5,
      if_neg (fun h => h5 h.symm), if_neg (fun h => h4 h.symm),
      if_neg (fun h => h3 h.symm), if_neg (fun h => h2 h.symm),
      if_neg (fun h => h1 h.symm)]
    exact objGet_spreadFields body k

/-- C3 witness: updating `p1` keeps `createdAt = T0` and
`createdBy = 1.1.1.1` while replacing the rest. -/
theorem update_preserves_provenance_w :
    (putProductCore "p1"
      (.obj [("name", .str "New"), ("price", .num 7)])
      (some "104.179.159.180") "2025-06-02T00:00:00.000Z"
      ⟨[], [("p1", .obj [("name", .str "Old"), ("price", .num 5),
        ("createdAt", .str "2020-01-01T00:00:00.000Z"),
        ("createdBy", .str "1.1.1.1")])]⟩).status = 200 :=
  (update_preserves_provenance "p1"
    (.obj [("name", .str "New"), ("price", .num 7)])
    "104.179.159.180" "2025-06-02T00:00:00.000Z"
    ⟨[], [("p1", .obj [("name", .str "Old"), ("price", .num 5),
      ("createdAt", .str "2020-01-01T00:00:00.000Z"),
      ("createdBy", .str "1.1.1.1")])]⟩
    [("name", .str "Old"), ("price", .num 5),
     ("createdAt", .str "2020-01-01T00:00:00.000Z"),
     ("createdBy", .str "1.1.1.1")]
    (.str "2020-01-01T00:00:00.000Z") (.str "1.1.1.1")
    (by decide) (by decide) rfl rfl (by decide) rfl (by decide)).1

/-- C4 (counterexample): a create whose body carries the key and a record
with `name` present and `price` present but equal to `0` is rejected with
400, although no required field is absent — the code tests JS falsiness,
not presence. -/
theorem create_validation_not_presence :
    ((JVal.obj [("productId", .str "p1"),
        ("productData", .obj [("name", .str "Bead"), ("price", .num 0)])]).getF
          "productData").getF "price" = .num 0 ∧
    (postProductCore
      (.obj [("productId", .str "p1"),
             ("productData", .obj [("name", .str "Bead"), ("price", .num 0)])])
      (some "104.179.159.180") "2025-06-01T00:00:00.000Z"
      ⟨[], []⟩).status = 400 :=
  ⟨rfl, rfl⟩

set_option linter.unnecessarySeqFocus false in
/-- C4 (amended): create fails with 400 exactly when `productId` or
`productData` is absent or falsy, or the record's `name` or `price` is
absent or falsy (such as `0` or the empty string); update fails with 400
exactly when the body's `name` or `price` is absent or falsy. -/
theorem validation_characterization (body : JVal) (clientIP : Option String)
    (now : String) (st : AppState) (id : String) (ubody : JVal) :
    ((postProductCore body clientIP now st).status = 400 ↔
      (truthy (body.getF "productId") = false ∨
       truthy (body.getF "productData") = false ∨
       truthy ((body.getF "productData").getF "name") = false ∨
       truthy ((body.getF "productData").getF "price") = false)) ∧
    ((putProductCore id ubody clientIP now st).status = 400 ↔
      (truthy (ubody.getF "name") = false ∨
       truthy (ubody.getF "price") = false)) := by
  constructor
  · by_cases h1 : truthy (body.getF "productId") = true <;>
      by_cases h2 : truthy (body.getF "productData") = true <;>
      by_cases h3 : truthy ((body.getF "productData").getF "name") = true <;>
      by_cases h4 : truthy ((body.getF "productData").getF "price") = true <;>
      simp [postProductCore, h1, h2, h3, h4] <;>
      (try split) <;> simp
  · by_cases h1 : truthy (ubody.getF "name") = true <;>
      by_cases h2 : truthy (ubody.getF "price") = true <;>
      simp [putProductCore, h1, h2] <;>
      (try split) <;> simp

/-- A value strictly equal to a string literal is that string. -/
theorem jsStrictEqStr_eq (v : JVal) (s : String)
    (h : jsStrictEqStr v s = true) : v = .str s := by
  cases v <;> simp [jsStrictEqStr] at h
  rw [h]

/-- C5: reset with scope `content`, `products` or `all` succeeds and
replaces exactly the chosen collection(s) with the empty mapping, leaving
the other untouched; any other scope value is a 400 that changes no
collection and saves nothing. -/
theorem reset_scopes (body : JVal) (st : AppState) :
    (jsStrictEqStr (body.getF "type") "content" = true →
      resetCore body st = ⟨200, ⟨[], st.products⟩, [(FileId.content, [])]⟩) ∧
    (jsStrictEqStr (body.getF "type") "products" = true →
      resetCore body st = ⟨200, ⟨st.content, []⟩, [(FileId.products, [])]⟩) ∧
    (jsStrictEqStr (body.getF "type") "all" = true →
      resetCore body st =
        ⟨200, ⟨[], []⟩, [(FileId.content, []), (FileId.products, [])]⟩) ∧
    (jsStrictEqStr (body.getF "type") "content" = false →
     jsStrictEqStr (body.getF "type") "products" = false →
     jsStrictEqStr (body.getF "type") "all" = false →
      resetCore body st = ⟨400, st, []⟩) := by
  refine ⟨fun h => ?_, fun h => ?_, fun h => ?_, fun h1 h2 h3 => ?_⟩
  · unfold resetCore
    rw [jsStrictEqStr_eq _ _ h]
    rfl
  · unfold resetCore
    rw [jsStrictEqStr_eq _ _ h]
    rfl
  · unfold resetCore
    rw [jsStrictEqStr_eq _ _ h]
    rfl
  · unfold resetCore
    simp [h1, h2, h3]

/-- C5 witness: an unknown scope is rejected and both collections stay. -/
theorem reset_scopes_w :
    resetCore (.obj [("type", .str "everything")])
      ⟨[("home", .obj [])], [("p1", .obj [])]⟩ =
    ⟨400, ⟨[("home", .obj [])], [("p1", .obj [])]⟩, []⟩ :=
  (reset_scopes (.obj [("type", .str "everything")])
    ⟨[("home", .obj [])], [("p1", .obj [])]⟩).2.2.2 rfl rfl rfl

/-- C6 (counterexample): a successful create of a fresh key whose body
already carries a `createdAt` keeps the body's value, so the stored
`createdAt` differs from the `lastModified` the create stamps. -/
theorem create_createdAt_from_body :
    (postProductCore
      (.obj [("productId", .str "p1"),
             ("productData", .obj [("name", .str "Bead A"), ("price", .num 10),
               ("createdAt", .str "2020-01-01T00:00:00.000Z")])])
      (some "104.179.159.180") "2025-06-01T12:00:00.000Z"
      ⟨[], []⟩).status = 200 ∧
    (objGet (postProductCore
      (.obj [("productId", .str "p1"),
             ("productData", .obj [("name", .str "Bead A"), ("price", .num 10),
               ("createdAt", .str "2020-01-01T00:00:00.000Z")])])
      (some "104.179.159.180") "2025-06-01T12:00:00.000Z"
      ⟨[], []⟩).state.products "p1").getF "createdAt" =
        .str "2020-01-01T00:00:00.000Z" ∧
    (objGet (postProductCore
      (.obj [("productId", .str "p1"),
             ("productData", .obj [("name", .str "Bead A"), ("price", .num 10),
               ("createdAt", .str "2020-01-01T00:00:00.000Z")])])
      (some "104.179.159.180") "2025-06-01T12:00:00.000Z"
      ⟨[], []⟩).state.products "p1").getF "lastModified" =
        .str "2025-06-01T12:00:00.000Z" ∧
    ("2020-01-01T00:00:00.000Z" : String) ≠ "2025-06-01T12:00:00.000Z" :=
  ⟨rfl, rfl, rfl, by decide⟩

/-- The reads of the four fields a freshly created product record
overrides on top of the spread body data. -/
theorem objGet_record4 (fsb : Obj) (a b c d : JVal) (k : String) :
    objGet (objSetAll fsb
      [("id", a), ("lastModified", b), ("modifiedBy", c),
       ("createdAt", d)]) k =
    if "createdAt" = k then d
    else if "modifiedBy" = k then c
    else if "lastModified" = k then b
    else if "id" = k then a
    else objGet fsb k := by
  simp [objSetAll_cons, objSetAll_nil, objGet_objSet]

/-- C6 (amended): after a successful create of a fresh key whose body
does not supply a (truthy) `createdAt`, the stored record's `createdAt`
equals its `lastModified` (both are the create's clock reading), and a
subsequent GET of the product returns that very record. -/
theorem create_fresh_createdAt
    (body : JVal) (clientIP : Option String) (now : String) (st : AppState)
    (hpid : truthy (body.getF "productId") = true)
    (hdata : truthy (body.getF "productData") = true)
    (hname : truthy ((body.getF "productData").getF "name") = true)
    (hprice : truthy ((body.getF "productData").getF "price") = true)
    (hfresh : truthy (objGet st.products (jsKey (body.getF "productId"))) = false)
    (hca : truthy ((body.getF "productData").getF "createdAt") = false) :
    (postProductCore body clientIP now st).status = 200 ∧
    ∃ r : Obj,
      objGet (postProductCore body clientIP now st).state.products
        (jsKey (body.getF "productId")) = .obj r ∧
      objGet r "createdAt" = .str now ∧
      objGet r "lastModified" = .str now ∧
      getProductCore (jsKey (body.getF "productId"))
        (postProductCore body clientIP now st).state = (200, .obj r) := by
  have hpost : postProductCore body clientIP now st =
      ⟨200,
       ⟨st.content,
        objSet st.products (jsKey (body.getF "productId"))
          (.obj (objSetAll (spreadFields (body.getF "productData"))
            [("id", body.getF "productId"), ("lastModified", .str now),
             ("modifiedBy", ipVal clientIP), ("createdAt", .str now)]))⟩,
       [(FileId.products,
         objSet st.products (jsKey (body.getF "productId"))
          (.obj (objSetAll (spreadFields (body.getF "productData"))
            [("id", body.getF "productId"), ("lastModified", .str now),
             ("modifiedBy", ipVal clientIP), ("createdAt", .str now)])))]⟩ := by
    unfold postProductCore
    simp [hpid, hdata, hname, hprice, hfresh, jsOrV, hca]
  rw [hpost]
  refine ⟨rfl,
    objSetAll (spreadFields (body.getF "productData"))
      [("id", body.getF "productId"), ("lastModified", .str now),
       ("modifiedBy", ipVal clientIP), ("createdAt", .str now)],
    ?_, ?_, ?_, ?_⟩
  · rw [objGet_objSet, if_pos rfl]
  · rw [objGet_record4, if_pos rfl]
  · rw [objGet_record4, if_neg (by decide), if_neg (by decide), if_pos rfl]
  · unfold getProductCore
    rw [objGet_objSet, if_pos rfl]
    rfl

/-- C6 witness: creating `p1` with no `createdAt` in the body stores
`createdAt` equal to the stamped `lastModified`. -/
theorem create_fresh_createdAt_w :
    (postProductCore
      (.obj [("productId", .str "p1"),
             ("productData", .obj [("name", .str "Bead A"), ("price", .num 10)])])
      (some "104.179.159.180") "2025-06-01T12:00:00.000Z"
      ⟨[], []⟩).status = 200 :=
  (create_fresh_createdAt
    (.obj [("productId", .str "p1"),
           ("productData", .obj [("name", .str "Bead A"), ("price", .num 10)])])
    (some "104.179.159.180") "2025-06-01T12:00:00.000Z" ⟨[], []⟩
    (by decide) (by decide) (by decide) (by decide) rfl rfl).1

/-- C7: a missing backing file (an `ENOENT` rejection) loads as the empty
mapping, never an error; a rejection with any other code is surfaced as an
`ioFailure`, and a text the parser rejects as a `parseFailure` — neither
as an empty mapping. -/
theorem loadData_missing_vs_failure
    (parse : String → Except String JVal) (code : Option String)
    (s m : String) :
    loadData (.err (some "ENOENT")) parse = .ok (.obj []) ∧
    (code ≠ some "ENOENT" →
      loadData (.err code) parse = .error (.ioFailure code)) ∧
    (parse s = .error m →
      loadData (.ok s) parse = .error (.parseFailure m)) := by
  refine ⟨rfl, fun h => ?_, fun h => ?_⟩
  · unfold loadData
    simp [h]
  · unfold loadData
    simp [h]

/-- C7 witness: a permission failure on read is surfaced, not emptied. -/
theorem loadData_missing_vs_failure_w :
    loadData (.err (some "EACCES")) (fun _ => .error "Unexpected token") =
      .error (.ioFailure (some "EACCES")) :=
  (loadData_missing_vs_failure (fun _ => .error "Unexpected token")
    (some "EACCES") "" "").2.1 (by decide)

/-- C8: the public product list carries one projected item per stored
entry, in iteration order; each item's keys are exactly the public field
names, its `id` echoes the key, and absent optional attributes get their
defaults: `inStock` true, `featured` false, `sizes` `["Standard"]`,
`scents` `[]`, `colors` `[]`. -/
theorem public_list_projection (store : Obj) (i : Nat) (id : String)
    (product : JVal) (hi : store[i]? = some (id, product)) :
    (listPublicProducts store).length = store.length ∧
    (listPublicProducts store)[i]? = some (projectProduct id product) ∧
    (projectProduct id product).map Prod.fst = publicFieldNames ∧
    objGet (projectProduct id product) "id" = .str id ∧
    (product.getF "inStock" = .undefined →
      objGet (projectProduct id product) "inStock" = .bool true) ∧
    (product.getF "featured" = .undefined →
      objGet (projectProduct id product) "featured" = .bool false) ∧
    (product.getF "sizes" = .undefined →
      objGet (projectProduct id product) "sizes" = .arr [.str "Standard"]) ∧
    (product.getF "scents" = .undefined →
      objGet (projectProduct id product) "scents" = .arr []) ∧
    (product.getF "colors" = .undefined →
      objGet (projectProduct id product) "colors" = .arr []) := by
  refine ⟨?_, ?_, rfl, rfl, fun h => ?_, fun h => ?_, fun h => ?_,
    fun h => ?_, fun h => ?_⟩
  · simp [listPublicProducts]
  · simp [listPublicProducts, hi]
  · have e : objGet (projectProduct id product) "inStock" =
        .bool (jsStrictNeqFalse (product.getF "inStock")) := rfl
    rw [e, h]
    rfl
  · have e : objGet (projectProduct id product) "featured" =
        jsOrV (product.getF "featured") (.bool false) := rfl
    rw [e, h]
    rfl
  · have e : objGet (projectProduct id product) "sizes" =
        jsOrV (product.getF "sizes") (.arr [.str "Standard"]) := rfl
    rw [e, h]
    rfl
  · have e : objGet (projectProduct id product) "scents" =
        jsOrV (product.getF "scents") (.arr []) := rfl
    rw [e, h]
    rfl
  · have e : objGet (projectProduct id product) "colors" =
        jsOrV (product.getF "colors") (.arr []) := rfl
    rw [e, h]
    rfl

/-- C8 witness: a product stored without `sizes` is listed with
`sizes = ["Standard"]`. -/
theorem public_list_projection_w :
    objGet (projectProduct "p1"
      (.obj [("name", .str "Bead"), ("price", .num 10)])) "sizes" =
      .arr [.str "Standard"] :=
  (public_list_projection
    [("p1", .obj [("name", .str "Bead"), ("price", .num 10)])] 0 "p1"
    (.obj [("name", .str "Bead"), ("price", .num 10)])
    rfl).2.2.2.2.2.2.1 rfl

/-- The content write either succeeds or changes and saves nothing. -/
theorem postContent_cases (req : Request) (body : JVal) (now : String)
    (st : AppState) :
    (postContent req body now st).status = 200 ∨
    ((postContent req body now st).state = st ∧
     (postContent req body now st).writes = []) := by
  unfold postContent postContentCore
  dsimp only
  split
  · split
    · right
      exact ⟨rfl, rfl⟩
    · left
      rfl
  · right
    exact ⟨rfl, rfl⟩

/-- The product create either succeeds or changes and saves nothing. -/
theorem postProduct_cases (req : Request) (body : JVal) (now : String)
    (st : AppState) :
    (postProduct req body now st).status = 200 ∨
    ((postProduct req body now st).state = st ∧
     (postProduct req body now st).writes = []) := by
  unfold postProduct postProductCore
  dsimp only
  split
  · split
    · right
      exact ⟨rfl, rfl⟩
    · split
      · right
        exact ⟨rfl, rfl⟩
      · split
        · right
          exact ⟨rfl, rfl⟩
        · left
          rfl
  · right
    exact ⟨rfl, rfl⟩

/-- The product update either succeeds or changes and saves nothing. -/
theorem putProduct_cases (req : Request) (id : String) (body : JVal)
    (now : String) (st : AppState) :
    (putProduct req id body now st).status = 200 ∨
    ((putProduct req id body now st).state = st ∧
     (putProduct req id body now st).writes = []) := by
  unfold putProduct putProductCore
  dsimp only
  split
  · split
    · right
      exact ⟨rfl, rfl⟩
    · split
      · right
        exact ⟨rfl, rfl⟩
      · left
        rfl
  · right
    exact ⟨rfl, rfl⟩

/-- The product delete either succeeds or changes and saves nothing. -/
theorem deleteProduct_cases (req : Request) (id : String) (st : AppState) :
    (deleteProduct req id st).status = 200 ∨
    ((deleteProduct req id st).state = st ∧
     (deleteProduct req id st).writes = []) := by
  unfold deleteProduct deleteProductCore
  dsimp only
  split
  · split
    · left
      rfl
    · right
      exact ⟨rfl, rfl⟩
  · right
    exact ⟨rfl, rfl⟩

/-- The reset either succeeds or changes and saves nothing. -/
theorem resetData_cases (req : Request) (body : JVal) (st : AppState) :
    (resetData req body st).status = 200 ∨
    ((resetData req body st).state = st ∧
     (resetData req body st).writes = []) := by
  unfold resetData resetCore
  dsimp only
  split
  · split
    · left
      rfl
    · split
      · left
        rfl
      · split
        · left
          rfl
        · right
          exact ⟨rfl, rfl⟩
  · right
    exact ⟨rfl, rfl⟩

/-- C9: each of the five mutating operations — content write, product
create, product update, product delete, reset — that ends in a 4xx
failure (403/400/404/409) performs no save and returns the stored state
exactly as it was. -/
theorem mutating_4xx_unchanged (req : Request) (body : JVal) (id : String)
    (now : String) (st : AppState) :
    (400 ≤ (postContent req body now st).status ∧
        (postContent req body now st).status < 500 →
      (postContent req body now st).state = st ∧
      (postContent req body now st).writes = []) ∧
    (400 ≤ (postProduct req body now st).status ∧
        (postProduct req body now st).status < 500 →
      (postProduct req body now st).state = st ∧
      (postProduct req body now st).writes = []) ∧
    (400 ≤ (putProduct req id body now st).status ∧
        (putProduct req id body now st).status < 500 →
      (putProduct req id body now st).state = st ∧
      (putProduct req id body now st).writes = []) ∧
    (400 ≤ (deleteProduct req id st).status ∧
        (deleteProduct req id st).status < 500 →
      (deleteProduct req id st).state = st ∧
      (deleteProduct req id st).writes = []) ∧
    (400 ≤ (resetData req body st).status ∧
        (resetData req body st).status < 500 →
      (resetData req body st).state = st ∧
      (resetData req body st).writes = []) := by
  refine ⟨fun h => ?_, fun h => ?_, fun h => ?_, fun h => ?_, fun h => ?_⟩
  · rcases postContent_cases req body now st with h200 | hok
    · rw [h200] at h
      omega
    · exact hok
  · rcases postProduct_cases req body now st with h200 | hok
    · rw [h200] at h
      omega
    · exact hok
  · rcases putProduct_cases req id body now st with h200 | hok
    · rw [h200] at h
      omega
    · exact hok
  · rcases deleteProduct_cases req id st with h200 | hok
    · rw [h200] at h
      omega
    · exact hok
  · rcases resetData_cases req body st with h200 | hok
    · rw [h200] at h
      omega
    · exact hok

/-- C9 witness: a reset from a non-allowlisted caller is a 403 that saves
nothing and leaves both collections as they were. -/
theorem mutating_4xx_unchanged_w :
    (resetData
      { connRemoteAddress := some "203.0.113.7",
        hostname := "adminbackend.example" }
      (.obj [("type", .str "all")])
      ⟨[("home", .obj [])], [("p1", .obj [])]⟩).state =
      ⟨[("home", .obj [])], [("p1", .obj [])]⟩ ∧
    (resetData
      { connRemoteAddress := some "203.0.113.7",
        hostname := "adminbackend.example" }
      (.obj [("type", .str "all")])
      ⟨[("home", .obj [])], [("p1", .obj [])]⟩).writes = [] :=
  (mutating_4xx_unchanged
    { connRemoteAddress := some "203.0.113.7",
      hostname := "adminbackend.example" }
    (.obj [("type", .str "all")]) "p1" "2025-06-01T00:00:00.000Z"
    ⟨[("home", .obj [])], [("p1", .obj [])]⟩).2.2.2.2
    ⟨by decide, by decide⟩

end AdminBackend
